import Mathlib

/-!
Verification of the MeteoLux Home Assistant integration against its
natural-language specification.

The development shallowly embeds the two core parts of the repository:
* the daily-forecast merge in `custom_components/meteolux/weather.py`
  (`MeteoLuxWeather.async_forecast_daily` and its helper parsers), and
* the fetch/retry loop in `custom_components/meteolux/coordinator.py`
  (`MeteoLuxDataUpdateCoordinator._async_update_data`).

JSON field values are modelled by `Val`; Python floats are modelled by
rationals (`ℚ`); dictionaries become structures whose optional fields use
`Option` with `none` standing for an absent key or a JSON `null`.  The
UTC calendar date the code reads internally via `datetime.now` is surfaced
as an explicit `today` argument of the embedding.
-/

namespace MeteoLux

/-- A JSON-like field value as it appears in the provider payloads:
`null`, a number, a string, or a list of numbers (temperature ranges). -/
inductive Val where
  | null : Val
  | num : ℚ → Val
  | str : String → Val
  | nums : List ℚ → Val
  deriving DecidableEq, Repr

/-- Python truthiness of an optional field value (`None`, `0`, `""` and
`[]` are falsy), as used by the `or`-based overlay in the merge. -/
def valTruthy : Option Val → Bool
  | none => false
  | some Val.null => false
  | some (Val.num q) => q ≠ 0
  | some (Val.str s) => s ≠ ""
  | some (Val.nums xs) => xs ≠ []

/-- Python `a or b` on optional field values. -/
def pyOr (a b : Option Val) : Option Val :=
  if valTruthy a then a else b

/-- Python truthiness of an optional string. -/
def strTruthy : Option String → Bool
  | none => false
  | some s => s ≠ ""

/-- Python `a or b` on optional strings. -/
def pyOrStr (a b : Option String) : Option String :=
  if strTruthy a then a else b

/-- Value of a decimal digit string read left to right. -/
def natOfDigits (cs : List Char) : Nat :=
  cs.foldl (fun n c => 10 * n + (c.toNat - 48)) 0

/-- Parse an unsigned decimal literal (`digits`, `digits.digits`,
`digits.` or `.digits`) into a rational; `none` otherwise.  Models the
accepting behaviour of Python `float()` on such literals. -/
def parseUnsigned (cs : List Char) : Option ℚ :=
  let intPart := cs.takeWhile (·.isDigit)
  let rest := cs.dropWhile (·.isDigit)
  match rest with
  | [] =>
    if intPart.isEmpty then none
    else some (natOfDigits intPart : ℚ)
  | '.' :: frac =>
    if intPart.isEmpty && frac.isEmpty then none
    else if frac.all (·.isDigit) then
      some ((natOfDigits intPart : ℚ) + (natOfDigits frac : ℚ) / (10 ^ frac.length))
    else none
  | _ => none

/-- Python `float(s)` on plain decimal literals with an optional sign;
`none` models `ValueError`. -/
def pyFloat (cs : List Char) : Option ℚ :=
  match cs with
  | '-' :: rest => (parseUnsigned rest).map (fun q => -q)
  | '+' :: rest => parseUnsigned rest
  | _ => parseUnsigned cs

/-- Python `s.split("-")`: split on every occurrence of `'-'`, keeping
empty pieces; the result is never empty. -/
def splitDash : List Char → List (List Char)
  | [] => [[]]
  | '-' :: rest => [] :: splitDash rest
  | c :: rest =>
    match splitDash rest with
    | p :: ps => (c :: p) :: ps
    | [] => [[c]]

/-- `parse_wind_speed` (weather.py): midpoint of a `"a-b"` range string,
`0.0` for `None`/`""`/`"0"`, the plain value for a single number, `None`
on a parse failure. -/
def parse_wind_speed (wind_speed_str : Option String) : Option ℚ :=
  match wind_speed_str with
  | none => some 0
  | some s =>
    if s = "" ∨ s = "0" then some 0
    else
      match splitDash s.data with
      | [a, b] =>
        match pyFloat a, pyFloat b with
        | some x, some y => some ((x + y) / 2)
        | _, _ => none
      | a :: _ => pyFloat a
      | [] => none

/-- `parse_precipitation` (weather.py): same algorithm as
`parse_wind_speed`, applied to precipitation range strings. -/
def parse_precipitation (precip_str : Option String) : Option ℚ :=
  match precip_str with
  | none => some 0
  | some s =>
    if s = "" ∨ s = "0" then some 0
    else
      match splitDash s.data with
      | [a, b] =>
        match pyFloat a, pyFloat b with
        | some x, some y => some ((x + y) / 2)
        | _, _ => none
      | a :: _ => pyFloat a
      | [] => none

/-- `parse_temperature` (weather.py): a bare number is returned as a
float, a non-empty list is averaged, anything else is `None`. -/
def parse_temperature : Val → Option ℚ
  | Val.num q => some q
  | Val.nums xs => if xs.length > 0 then some (xs.sum / xs.length) else none
  | _ => none

/-- `WIND_DIRECTION_MAP` (const.py): per-language table translating the
provider's French compass abbreviations; `none` for an unsupported
language code. -/
def WIND_DIRECTION_MAP (lang : String) : Option (List (String × String)) :=
  if lang = "en" then
    some [("N", "N"), ("NE", "NE"), ("E", "E"), ("SE", "SE"),
          ("S", "S"), ("SO", "SW"), ("O", "W"), ("NO", "NW")]
  else if lang = "fr" then
    some [("N", "N"), ("NE", "NE"), ("E", "E"), ("SE", "SE"),
          ("S", "S"), ("SO", "SO"), ("O", "O"), ("NO", "NO")]
  else if lang = "de" then
    some [("N", "N"), ("NE", "NO"), ("E", "O"), ("SE", "SO"),
          ("S", "S"), ("SO", "SW"), ("O", "W"), ("NO", "NW")]
  else if lang = "lb" then
    some [("N", "N"), ("NE", "NO"), ("E", "O"), ("SE", "SO"),
          ("S", "S"), ("SO", "SW"), ("O", "W"), ("NO", "NW")]
  else none

/-- `MeteoLuxWeather._translate_wind_direction` (weather.py): falsy input
gives `None`; otherwise look the code up in the requested language's
table, falling back to the English table for an unsupported language and
to the original code for an unmapped abbreviation. -/
def translate_wind_direction (lang : String) (direction : Option String) : Option String :=
  match direction with
  | none => none
  | some d =>
    if d = "" then none
    else
      let direction_map := (WIND_DIRECTION_MAP lang).getD ((WIND_DIRECTION_MAP "en").getD [])
      some ((direction_map.lookup d).getD d)

/-- `CONDITION_MAP` (const.py): provider icon id → Home Assistant
condition keyword; `none` for an unmapped id. -/
def CONDITION_MAP (i : Nat) : Option String :=
  if i = 1 then some "sunny"
  else if i = 2 then some "clear-night"
  else if i = 3 ∨ i = 4 ∨ i = 9 then some "partlycloudy"
  else if i = 5 ∨ i = 6 ∨ i = 8 ∨ i = 10 then some "cloudy"
  else if i = 7 ∨ (11 ≤ i ∧ i ≤ 14) then some "fog"
  else if (15 ≤ i ∧ i ≤ 22) ∨ (24 ≤ i ∧ i ≤ 27) ∨ i = 30 ∨ i = 31 then some "rainy"
  else if i = 23 ∨ i = 32 then some "pouring"
  else if i = 28 ∨ i = 29 then some "snowy-rainy"
  else if (33 ≤ i ∧ i ≤ 41) then some "snowy"
  else if (42 ≤ i ∧ i ≤ 44) then some "hail"
  else if i = 45 ∨ i = 47 ∨ i = 48 then some "lightning-rainy"
  else if i = 46 then some "lightning"
  else if i = 49 then some "exceptional"
  else if i = 50 then some "windy"
  else none

/-- The current-conditions snapshot `coordinator.data["forecast"]["current"]`.
Nested lookups are flattened: e.g. `temperature` holds
`current["temperature"].get("temperature")` with `Val.null` when the key
is missing, and `icon` holds `current["icon"]["id"]` with `none` for a
missing key.  `rest` stands for the payload keys the merge never reads
(city, ephemeris, the hourly list, ...). -/
structure CurrentData where
  icon : Option Nat := none
  temperature : Val := Val.null
  felt : Option Val := none
  windSpeed : Option String := none
  windGusts : Option String := none
  windDirection : Option String := none
  rain : Option String := none
  humidity : Option Val := none
  pressure : Option Val := none
  clouds : Option Val := none
  uv : Option Val := none
  rest : List (String × Val) := []
  deriving DecidableEq, Repr

/-- One entry of the detailed daily feed
`coordinator_daily.data["forecast"]["daily"]`.  `temperatureMax` /
`temperatureMin` hold `day.get("temperatureMax", {}).get("temperature")`
flattened to a `Val`. -/
structure DetailedDay where
  date : String
  temperatureMax : Val := Val.null
  temperatureMin : Val := Val.null
  windSpeed : Option String := none
  windGusts : Option String := none
  windDirection : Option String := none
  rain : Option String := none
  uvIndex : Option Val := none
  deriving DecidableEq, Repr

/-- One entry of the extended daily feed
`coordinator_daily.data["data"]["forecast"]`. -/
structure ExtendedDay where
  date : String
  maxTemp : Option Val := none
  minTemp : Option Val := none
  precipitation : Option Val := none
  deriving DecidableEq, Repr

/-- The daily coordinator's payload: the detailed list
`data.get("forecast", {}).get("daily", [])`, the extended list
`data.get("data", {}).get("forecast", [])`, and `rest` for every other
key of the raw payload, which the merge never reads. -/
structure DailyPayload where
  detailed : List DetailedDay := []
  extended : List ExtendedDay := []
  rest : List (String × Val) := []
  deriving DecidableEq, Repr

/-- A Home Assistant `Forecast` record as built by the merge.  `none`
stands for a key that is absent or set to `None`.  Parsed numeric values
are embedded as `Val.num`; fields copied verbatim from the payload keep
their raw `Val`. -/
structure Forecast where
  datetime : String
  condition : Option String := none
  native_temperature : Option Val := none
  native_apparent_temperature : Option Val := none
  native_templow : Option Val := none
  native_precipitation : Option Val := none
  native_wind_speed : Option Val := none
  native_wind_gust_speed : Option Val := none
  wind_bearing : Option String := none
  humidity : Option Val := none
  native_pressure : Option Val := none
  cloud_coverage : Option Val := none
  uv_index : Option Val := none
  deriving DecidableEq, Repr

/-- The `MeteoLuxWeather.condition` property: icon id of the current
snapshot looked up in `CONDITION_MAP`, `None` when unavailable. -/
def conditionOf (cur : Option CurrentData) : Option String :=
  match cur with
  | none => none
  | some c =>
    match c.icon with
    | none => none
    | some i => CONDITION_MAP i

/-- The synthesized "today" record built from the current snapshot
(weather.py lines 283–297): parsed temperature/precipitation/wind, raw
apparent temperature, humidity, pressure, clouds and UV, no low. -/
def todayForecast (c : CurrentData) (lang today : String) : Forecast :=
  { datetime := today
    condition := conditionOf (some c)
    native_temperature := (parse_temperature c.temperature).map Val.num
    native_apparent_temperature := c.felt
    native_templow := none
    native_precipitation := (parse_precipitation c.rain).map Val.num
    native_wind_speed := (parse_wind_speed c.windSpeed).map Val.num
    native_wind_gust_speed := (parse_wind_speed c.windGusts).map Val.num
    wind_bearing := translate_wind_direction lang c.windDirection
    humidity := c.humidity
    native_pressure := c.pressure
    cloud_coverage := c.clouds
    uv_index := c.uv }

/-- The record built from one detailed-feed day (weather.py lines
304–358), including the current-weather overlay when the day is today
and a snapshot is available: condition, humidity, pressure and clouds
come from the snapshot, wind speed and bearing only when the forecast's
own value is falsy (Python `or`). -/
def detailedForecast (cur : Option CurrentData) (lang today : String)
    (day : DetailedDay) : Forecast :=
  let base : Forecast :=
    { datetime := day.date
      native_temperature := (parse_temperature day.temperatureMax).map Val.num
      native_templow := (parse_temperature day.temperatureMin).map Val.num
      native_precipitation := (parse_precipitation day.rain).map Val.num
      native_wind_speed := (parse_wind_speed day.windSpeed).map Val.num
      native_wind_gust_speed := (parse_wind_speed day.windGusts).map Val.num
      wind_bearing := translate_wind_direction lang day.windDirection
      uv_index := day.uvIndex }
  match cur with
  | some c =>
    if day.date = today then
      { base with
        condition := conditionOf (some c)
        humidity := c.humidity
        native_pressure := c.pressure
        cloud_coverage := c.clouds
        native_wind_speed :=
          pyOr base.native_wind_speed ((parse_wind_speed c.windSpeed).map Val.num)
        wind_bearing :=
          pyOrStr base.wind_bearing (translate_wind_direction lang c.windDirection) }
    else base
  | none => base

/-- The record built from one extended-feed day (weather.py lines
396–401): only date, high/low temperature and precipitation, all copied
verbatim from the payload. -/
def extendedForecast (d : ExtendedDay) : Forecast :=
  { datetime := d.date
    native_temperature := d.maxTemp
    native_templow := d.minTemp
    native_precipitation := d.precipitation }

/-- `first_forecast_date` (weather.py lines 268–272): the first date of
the detailed feed, else of the extended feed. -/
def firstForecastDate (dd : DailyPayload) : Option String :=
  match dd.detailed with
  | d :: _ => some d.date
  | [] =>
    match dd.extended with
    | e :: _ => some e.date
    | [] => none

/-- Whether the merge synthesizes a "today" entry (weather.py lines
274–277): the first feed date exists, is truthy, differs from today, and
the current snapshot is available. -/
def synthesizes (dd : DailyPayload) (cur : Option CurrentData) (today : String) : Bool :=
  match firstForecastDate dd, cur with
  | some f, some _ => f ≠ "" && f ≠ today
  | _, _ => false

/-- Phase 1 of the merge: the forecast list and seen-date set after the
optional today-synthesis (weather.py lines 267–302). -/
def startState (dd : DailyPayload) (cur : Option CurrentData) (lang today : String) :
    List Forecast × List String :=
  match firstForecastDate dd with
  | some f =>
    if f ≠ "" ∧ f ≠ today then
      match cur with
      | some c => ([todayForecast c lang today], [today])
      | none => ([], [])
    else ([], [])
  | none => ([], [])

/-- Phase 2 of the merge: the loop over `detailed_data[:5]` (weather.py
lines 304–359), appending one record per day and marking its date seen. -/
def addDetailed (cur : Option CurrentData) (lang today : String) :
    List DetailedDay → List Forecast × List String → List Forecast × List String
  | [], st => st
  | day :: rest, (acc, seen) =>
    addDetailed cur lang today rest
      (acc ++ [detailedForecast cur lang today day], day.date :: seen)

/-- Phase 3 of the merge: the loop over `extended_data[detailed_days:]`
(weather.py lines 386–403), skipping dates already seen. -/
def addExtended :
    List ExtendedDay → List Forecast × List String → List Forecast × List String
  | [], st => st
  | day :: rest, (acc, seen) =>
    if day.date ∈ seen then addExtended rest (acc, seen)
    else addExtended rest (acc ++ [extendedForecast day], day.date :: seen)

/-- The state after phases 1 and 2; `detailed_days = len(forecasts)`
(weather.py line 362) is the length of its first component. -/
def detailedState (dd : DailyPayload) (cur : Option CurrentData) (lang today : String) :
    List Forecast × List String :=
  addDetailed cur lang today (dd.detailed.take 5) (startState dd cur lang today)

/-- `MeteoLuxWeather.async_forecast_daily` (weather.py lines 234–415) as
a function of the daily coordinator's payload, the current snapshot, the
configured language and the UTC date the code reads via `datetime.now`.
`none` models the early return when the daily coordinator has no data. -/
def async_forecast_daily (dailyData : Option DailyPayload) (cur : Option CurrentData)
    (lang today : String) : Option (List Forecast) :=
  match dailyData with
  | none => none
  | some dd =>
    let st := detailedState dd cur lang today
    some (addExtended (dd.extended.drop st.1.length) st).1

/-- `RETRY_DELAYS` (coordinator.py line 17). -/
def RETRY_DELAYS : List Nat := [2, 4, 8, 16, 30, 60]

/-- The outcome of one HTTP attempt, as seen by the retry loop: an HTTP
response with a status and an (abstract, already JSON-parsed) body, an
`aiohttp.ClientError`, an `asyncio.TimeoutError`, or any other
exception. -/
inductive AttemptOutcome (β : Type) where
  | response (status : Nat) (body : β)
  | networkError
  | timeoutError
  | unexpectedError
  deriving DecidableEq, Repr

/-- The typed failures `_async_update_data` raises as `UpdateFailed`. -/
inductive FetchError where
  | noLocation
  | httpError (status : Nat)
  | network
  | timeout
  | unexpected
  | exhausted
  deriving DecidableEq, Repr

/-- The observable behaviour of one refresh cycle: the sequence of
backoff sleeps performed, the number of HTTP attempts made, and the
final payload or typed failure. -/
structure FetchTrace (β : Type) where
  sleeps : List Nat
  tries : Nat
  outcome : Except FetchError β
  deriving Repr

/-- Classification of one attempt (coordinator.py lines 82–151):
`.ok` on status 200, otherwise an error tagged with whether it is
retryable (5xx, 429 and every other non-200 status, network errors and
timeouts retry; 4xx except 429 and unexpected errors do not). -/
def attemptStep {β : Type} (o : AttemptOutcome β) : Except (Bool × FetchError) β :=
  match o with
  | .response s b =>
    if s = 200 then .ok b
    else if 400 ≤ s ∧ s < 500 ∧ s ≠ 429 then .error (false, .httpError s)
    else .error (true, .httpError s)
  | .networkError => .error (true, .network)
  | .timeoutError => .error (true, .timeout)
  | .unexpectedError => .error (false, .unexpected)

/-- The retry loop `for attempt in range(len(RETRY_DELAYS) + 1)`
(coordinator.py lines 73–156).  `remaining` is the fuel left in the
range, `i` the current attempt index; on a retryable failure with
attempts left the loop sleeps `RETRY_DELAYS[i]` and continues, otherwise
it raises the last error.  The fuel-exhausted case models the fallback
after the loop (lines 153–156). -/
def fetchAttempts {β : Type} (att : Nat → AttemptOutcome β) :
    Nat → Nat → Option FetchError → FetchTrace β
  | 0, _, lastError => ⟨[], 0, .error (lastError.getD .exhausted)⟩
  | remaining + 1, i, _ =>
    match attemptStep (att i) with
    | .ok b => ⟨[], 1, .ok b⟩
    | .error (canRetry, e) =>
      if canRetry then
        if i < RETRY_DELAYS.length then
          let t := fetchAttempts att remaining (i + 1) (some e)
          ⟨RETRY_DELAYS.getD i 0 :: t.sleeps, t.tries + 1, t.outcome⟩
        else ⟨[], 1, .error e⟩
      else ⟨[], 1, .error e⟩

/-- The coordinator's location/language configuration
(coordinator.py lines 40–43). -/
structure FetchConfig where
  city_id : Option Nat := none
  latitude : Option ℚ := none
  longitude : Option ℚ := none
  language : String := "en"
  deriving DecidableEq, Repr

/-- `MeteoLuxDataUpdateCoordinator._async_update_data` (coordinator.py
lines 46–156) as a function of the configuration and of the outcome of
each attempt index: with no location selector it fails immediately with
zero attempts and zero sleeps; otherwise it runs the retry loop with
1 + 6 attempts of budget. -/
def _async_update_data {β : Type} (cfg : FetchConfig)
    (att : Nat → AttemptOutcome β) : FetchTrace β :=
  match cfg.city_id with
  | some _ => fetchAttempts att (RETRY_DELAYS.length + 1) 0 none
  | none =>
    match cfg.latitude, cfg.longitude with
    | some _, some _ => fetchAttempts att (RETRY_DELAYS.length + 1) 0 none
    | _, _ => ⟨[], 0, .error .noLocation⟩

/-! ### Concrete sample inputs used to evaluate the embedding -/

/-- A current-conditions snapshot with every field populated. -/
def sampleCurrent : CurrentData :=
  { icon := some 3
    temperature := Val.num 15
    felt := some (Val.num 14)
    windSpeed := some "0"
    windGusts := some "0"
    windDirection := some "O"
    rain := some "0"
    humidity := some (Val.num 75)
    pressure := some (Val.num 1013)
    clouds := some (Val.num 45)
    uv := some (Val.num 3) }

/-- A daily payload whose detailed feed repeats the same date twice. -/
def dupDetailedPayload : DailyPayload :=
  { detailed := [{ date := "2025-10-27" }, { date := "2025-10-27" }] }

/-- The merge output for `dupDetailedPayload` on 2025-10-27. -/
def dupMergeOutput : List Forecast :=
  (async_forecast_daily (some dupDetailedPayload) none "en" "2025-10-27").getD []

/-- A daily payload with a single detailed day. -/
def singleDayPayload : DailyPayload :=
  { detailed := [{ date := "2025-10-27" }] }

/-- The merge output for `singleDayPayload` on 2025-10-27. -/
def singleDayOutput : List Forecast :=
  (async_forecast_daily (some singleDayPayload) none "en" "2025-10-27").getD []

/-- A daily payload whose feeds start at 2025-10-28, i.e. strictly
before a caller date of 2025-10-29. -/
def staleFeedPayload : DailyPayload :=
  { detailed := [{ date := "2025-10-28" }] }

/-- The merge output for `staleFeedPayload` with the snapshot available
and the clock at 2025-10-29, one day after the feed's first date. -/
def staleOutput : List Forecast :=
  (async_forecast_daily (some staleFeedPayload) (some sampleCurrent) "en" "2025-10-29").getD []

/-- One detailed day at 2025-10-28 plus three extended days 28/29/30,
refreshed while the clock still reads 2025-10-27. -/
def offsetPayload : DailyPayload :=
  { detailed := [{ date := "2025-10-28" }]
    extended := [{ date := "2025-10-28" }, { date := "2025-10-29" }, { date := "2025-10-30" }] }

/-- The merge output for `offsetPayload` on 2025-10-27. -/
def offsetOutput : List Forecast :=
  (async_forecast_daily (some offsetPayload) (some sampleCurrent) "en" "2025-10-27").getD []

/-- A payload with only an extended feed. -/
def extOnlyPayload : DailyPayload :=
  { extended := [{ date := "2025-11-01" }] }

/-- An extended feed carrying a raw range string in `maxTemp` and
`precipitation`. -/
def verbatimPayload : DailyPayload :=
  { extended := [{ date := "2025-11-02", maxTemp := some (Val.str "1-2"),
                   minTemp := some (Val.num 1), precipitation := some (Val.str "1-2") }] }

/-- The merge output for `verbatimPayload` on 2025-11-02. -/
def verbatimOutput : List Forecast :=
  (async_forecast_daily (some verbatimPayload) none "en" "2025-11-02").getD []

/-! ### Structural lemmas about the merge phases -/

/-- The overlay never changes the record's date. -/
theorem datetime_detailedForecast (cur : Option CurrentData) (lang today : String)
    (day : DetailedDay) : (detailedForecast cur lang today day).datetime = day.date := by
  cases cur with
  | none => rfl
  | some c =>
    by_cases h : day.date = today <;> simp [detailedForecast, h]

/-- Phase 2 appends exactly one record per detailed day, in order. -/
theorem addDetailed_fst (cur : Option CurrentData) (lang today : String) :
    ∀ (ds : List DetailedDay) (acc : List Forecast) (seen : List String),
      (addDetailed cur lang today ds (acc, seen)).1 =
        acc ++ ds.map (detailedForecast cur lang today) := by
  intro ds
  induction ds with
  | nil => intro acc seen; simp [addDetailed]
  | cons d rest ih =>
    intro acc seen
    simp [addDetailed, ih]

/-- Phase 2 marks exactly the processed dates as seen. -/
theorem addDetailed_snd (cur : Option CurrentData) (lang today : String) :
    ∀ (ds : List DetailedDay) (acc : List Forecast) (seen : List String),
      (addDetailed cur lang today ds (acc, seen)).2 =
        (ds.map DetailedDay.date).reverse ++ seen := by
  intro ds
  induction ds with
  | nil => intro acc seen; simp [addDetailed]
  | cons d rest ih =>
    intro acc seen
    simp [addDetailed, ih]

/-- Phase 2 depends on the snapshot only through the record builder. -/
theorem addDetailed_congr (cur cur' : Option CurrentData) (lang today : String)
    (h : ∀ day, detailedForecast cur lang today day = detailedForecast cur' lang today day) :
    ∀ (ds : List DetailedDay) (st : List Forecast × List String),
      addDetailed cur lang today ds st = addDetailed cur' lang today ds st := by
  intro ds
  induction ds with
  | nil => intro st; rfl
  | cons d rest ih =>
    intro st
    rcases st with ⟨acc, seen⟩
    simp only [addDetailed, h d]
    exact ih _

/-- Phase 3 only ever appends to the accumulated list. -/
theorem addExtended_append :
    ∀ (ds : List ExtendedDay) (acc : List Forecast) (seen : List String),
      (addExtended ds (acc, seen)).1 = acc ++ (addExtended ds ([], seen)).1 := by
  intro ds
  induction ds with
  | nil => intro acc seen; simp [addExtended]
  | cons d rest ih =>
    intro acc seen
    by_cases h : d.date ∈ seen
    · simp only [addExtended, if_pos h]
      exact ih acc seen
    · simp only [addExtended, if_neg h, List.nil_append]
      rw [ih, ih [extendedForecast d]]
      simp [List.append_assoc]

/-- Every record phase 3 adds comes verbatim from a visited extended day
whose date was not yet seen when the phase started. -/
theorem addExtended_mem :
    ∀ (ds : List ExtendedDay) (acc : List Forecast) (seen : List String)
      (f : Forecast), f ∈ (addExtended ds (acc, seen)).1 →
      f ∈ acc ∨ ∃ d ∈ ds, f = extendedForecast d ∧ d.date ∉ seen := by
  intro ds
  induction ds with
  | nil =>
    intro acc seen f hf
    exact Or.inl hf
  | cons d rest ih =>
    intro acc seen f hf
    by_cases h : d.date ∈ seen
    · rw [addExtended, if_pos h] at hf
      rcases ih acc seen f hf with h1 | ⟨d', hd', he, hn⟩
      · exact Or.inl h1
      · exact Or.inr ⟨d', List.mem_cons_of_mem d hd', he, hn⟩
    · rw [addExtended, if_neg h] at hf
      rcases ih (acc ++ [extendedForecast d]) (d.date :: seen) f hf with h1 | ⟨d', hd', he, hn⟩
      · rcases List.mem_append.mp h1 with h2 | h2
        · exact Or.inl h2
        · refine Or.inr ⟨d, List.mem_cons_self d rest, ?_, h⟩
          simpa using h2
      · exact Or.inr ⟨d', List.mem_cons_of_mem d hd', he,
          fun hs => hn (List.mem_cons_of_mem _ hs)⟩

/-- Phase 3 preserves date-uniqueness of the accumulated list as long as
every accumulated date is already marked seen. -/
theorem addExtended_nodup :
    ∀ (ds : List ExtendedDay) (acc : List Forecast) (seen : List String),
      (acc.map Forecast.datetime).Nodup →
      (∀ f ∈ acc, f.datetime ∈ seen) →
      ((addExtended ds (acc, seen)).1.map Forecast.datetime).Nodup := by
  intro ds
  induction ds with
  | nil =>
    intro acc seen h1 _
    exact h1
  | cons d rest ih =>
    intro acc seen h1 h2
    by_cases h : d.date ∈ seen
    · rw [addExtended, if_pos h]
      exact ih acc seen h1 h2
    · rw [addExtended, if_neg h]
      refine ih (acc ++ [extendedForecast d]) (d.date :: seen) ?_ ?_
      · rw [List.map_append]
        refine List.Nodup.append h1 (by simp) ?_
        intro x hx hy
        simp only [List.map_cons, List.map_nil, List.mem_singleton] at hy
        rcases List.mem_map.mp hx with ⟨f, hf, hfx⟩
        have hfseen := h2 f hf
        rw [hfx, hy] at hfseen
        exact h hfseen
      · intro f hf
        rcases List.mem_append.mp hf with h3 | h3
        · exact List.mem_cons_of_mem _ (h2 f h3)
        · simp only [List.mem_singleton] at h3
          subst h3
          exact List.mem_cons_self _ _

/-- Phase 1 either synthesizes nothing, or (exactly when `synthesizes`
holds and a snapshot exists) seeds the output with the snapshot-sourced
today record and marks today seen. -/
theorem startState_cases (dd : DailyPayload) (cur : Option CurrentData)
    (lang today : String) :
    (synthesizes dd cur today = false ∧ startState dd cur lang today = ([], [])) ∨
    (∃ c, cur = some c ∧ synthesizes dd cur today = true ∧
      startState dd cur lang today = ([todayForecast c lang today], [today])) := by
  unfold synthesizes startState
  generalize firstForecastDate dd = fd
  cases fd with
  | none =>
    left
    cases cur <;> simp
  | some f =>
    cases cur with
    | none =>
      left
      exact ⟨rfl, by simp⟩
    | some c =>
      by_cases h1 : f = ""
      · subst h1
        left
        exact ⟨by simp, by simp⟩
      · by_cases h2 : f = today
        · subst h2
          left
          exact ⟨by simp, by simp [h1]⟩
        · right
          exact ⟨c, rfl, by simp [h1, h2], by simp [h1, h2]⟩

/-- Unfolding of the merge into its three phases. -/
theorem async_forecast_daily_eq (dd : DailyPayload) (cur : Option CurrentData)
    (lang today : String) :
    async_forecast_daily (some dd) cur lang today =
      some (addExtended (dd.extended.drop (detailedState dd cur lang today).1.length)
        (detailedState dd cur lang today)).1 := rfl

/-- The retry loop makes at most as many attempts as its fuel allows,
and its sleeps are an initial segment of `RETRY_DELAYS` when it starts
at attempt index 0 — more generally an initial segment of the schedule's
tail from index `i`. -/
theorem fetchAttempts_spec {β : Type} (att : Nat → AttemptOutcome β) :
    ∀ (n i : Nat) (le : Option FetchError),
      (fetchAttempts att n i le).tries ≤ n ∧
      (fetchAttempts att n i le).sleeps =
        (RETRY_DELAYS.drop i).take (fetchAttempts att n i le).sleeps.length := by
  intro n
  induction n with
  | zero =>
    intro i le
    exact ⟨Nat.le_refl 0, by simp [fetchAttempts]⟩
  | succ n ih =>
    intro i le
    rw [fetchAttempts]
    cases h : attemptStep (att i) with
    | ok b => exact ⟨Nat.one_le_iff_ne_zero.mpr (by simp), by simp⟩
    | error p =>
      rcases p with ⟨canRetry, e⟩
      by_cases hr : canRetry = true
      · subst hr
        simp only [if_true]
        by_cases hi : i < RETRY_DELAYS.length
        · rw [if_pos hi]
          refine ⟨Nat.succ_le_succ (ih (i + 1) (some e)).1, ?_⟩
          have hs := (ih (i + 1) (some e)).2
          simp only [List.length_cons]
          rw [List.drop_eq_getElem_cons hi, List.take_succ_cons,
            List.getD_eq_getElem _ _ hi, ← hs]
        · rw [if_neg hi]
          exact ⟨Nat.one_le_iff_ne_zero.mpr (by simp), by simp⟩
      · rw [Bool.not_eq_true] at hr
        subst hr
        simp only [Bool.false_eq_true, if_false]
        exact ⟨Nat.one_le_iff_ne_zero.mpr (by simp), by simp⟩

/-- Characterization of the state after phases 1 and 2. -/
theorem detailedState_eq (dd : DailyPayload) (cur : Option CurrentData)
    (lang today : String) (fs0 : List Forecast) (seen0 : List String)
    (h : startState dd cur lang today = (fs0, seen0)) :
    detailedState dd cur lang today =
      (fs0 ++ (dd.detailed.take 5).map (detailedForecast cur lang today),
        ((dd.detailed.take 5).map DetailedDay.date).reverse ++ seen0) := by
  unfold detailedState
  rw [h, ← addDetailed_fst cur lang today (dd.detailed.take 5) fs0 seen0,
    ← addDetailed_snd cur lang today (dd.detailed.take 5) fs0 seen0]

/-! ### Claim theorems -/

/-- C6: calling refresh with neither a city id nor a latitude/longitude
pair fails immediately with the typed no-location `UpdateFailed` error,
performing zero HTTP attempts and zero sleeps — for every attempt
behaviour and language. -/
theorem c6_missing_location_immediate_failure :
    ∀ (β : Type) (att : Nat → AttemptOutcome β) (lang : String),
      _async_update_data (FetchConfig.mk none none none lang) att =
        ⟨[], 0, Except.error FetchError.noLocation⟩ := by
  intro β att lang
  rfl

/-- C2: three consecutive HTTP 503 responses followed by HTTP 200 make
the refresh succeed on the 4th attempt after sleeping exactly 2, 4 and
8 time units; in general every refresh cycle makes at most 7 attempts
and its sleeps are an initial segment of the fixed schedule
{2, 4, 8, 16, 30, 60}. -/
theorem c2_retry_backoff_schedule :
    (∀ (β : Type) (b0 b1 : β) (cid : Nat) (lang : String),
        _async_update_data (FetchConfig.mk (some cid) none none lang)
          (fun i => if i < 3 then AttemptOutcome.response 503 b0
                    else AttemptOutcome.response 200 b1) =
          ⟨[2, 4, 8], 4, Except.ok b1⟩)
    ∧ (∀ (β : Type) (cfg : FetchConfig) (att : Nat → AttemptOutcome β),
        (_async_update_data cfg att).tries ≤ 7 ∧
        (_async_update_data cfg att).sleeps =
          RETRY_DELAYS.take (_async_update_data cfg att).sleeps.length) := by
  constructor
  · intro β b0 b1 cid lang
    rfl
  · intro β cfg att
    rcases cfg with ⟨city, lat, lon, lang⟩
    cases city with
    | some c =>
      refine ⟨(fetchAttempts_spec att (RETRY_DELAYS.length + 1) 0 none).1, ?_⟩
      have h := (fetchAttempts_spec att (RETRY_DELAYS.length + 1) 0 none).2
      simpa using h
    | none =>
      cases lat with
      | none => exact ⟨by simp [_async_update_data], by simp [_async_update_data]⟩
      | some la =>
        cases lon with
        | none => exact ⟨by simp [_async_update_data], by simp [_async_update_data]⟩
        | some lo =>
          refine ⟨(fetchAttempts_spec att (RETRY_DELAYS.length + 1) 0 none).1, ?_⟩
          have h := (fetchAttempts_spec att (RETRY_DELAYS.length + 1) 0 none).2
          simpa using h

/-- C5 counterexample: the claim says every 2xx status is parsed and
returned as success with no retry, but the code accepts only exactly
200 — an HTTP 201 response on every attempt is classified retryable,
sleeps through the whole backoff schedule and fails after 7 attempts. -/
theorem c5_counterexample_2xx_not_success :
    _async_update_data (FetchConfig.mk (some 1) none none "en")
      (fun _ => AttemptOutcome.response 201 Val.null) =
      ⟨[2, 4, 8, 16, 30, 60], 7, Except.error (FetchError.httpError 201)⟩ ∧
    200 ≤ 201 ∧ 201 < 300 :=
  ⟨rfl, by norm_num, by norm_num⟩

/-- C5 amended: a refresh whose first attempt returns HTTP status
exactly 200 succeeds immediately with the parsed payload, no sleep and a
single attempt; every other 2xx status is classified as a retryable
error, not as success. -/
theorem c5_success_only_on_200 :
    (∀ (β : Type) (b : β) (att : Nat → AttemptOutcome β) (cid : Nat)
        (lat lon : Option ℚ) (lang : String),
        att 0 = AttemptOutcome.response 200 b →
        _async_update_data (FetchConfig.mk (some cid) lat lon lang) att =
          ⟨[], 1, Except.ok b⟩)
    ∧ (∀ (β : Type) (s : Nat) (b : β), 200 ≤ s → s < 300 → s ≠ 200 →
        attemptStep (AttemptOutcome.response s b) =
          Except.error (true, FetchError.httpError s)) := by
  constructor
  · intro β b att cid lat lon lang h
    show fetchAttempts att (RETRY_DELAYS.length + 1) 0 none = _
    rw [fetchAttempts, h]
    rfl
  · intro β s b h1 h2 h3
    simp only [attemptStep]
    rw [if_neg h3, if_neg (by omega)]

/-- C5 witness: the amended theorem applied to a 200 response and to the
2xx status 204. -/
theorem c5_witness :
    _async_update_data (FetchConfig.mk (some 1) none none "en")
      (fun _ => AttemptOutcome.response 200 Val.null) = ⟨[], 1, Except.ok Val.null⟩ ∧
    attemptStep (AttemptOutcome.response 204 Val.null) =
      Except.error (true, FetchError.httpError 204) :=
  ⟨c5_success_only_on_200.1 Val Val.null _ 1 none none "en" rfl,
   c5_success_only_on_200.2 Val 204 Val.null (by norm_num) (by norm_num) (by norm_num)⟩

/-- C7 counterexample: the claim says null/empty input yields null, but
both parsers return exactly 0 for `None` and for the empty string. -/
theorem c7_counterexample_null_empty :
    parse_wind_speed none = some 0 ∧ parse_wind_speed (some "") = some 0 ∧
    parse_precipitation none = some 0 ∧ parse_precipitation (some "") = some 0 ∧
    parse_wind_speed none ≠ none :=
  ⟨rfl, by decide, rfl, by decide, by decide⟩

/-- C7 amended: a two-number range parses to the arithmetic mean of its
bounds, the literal `"0"` parses to exactly 0, null/empty input parses
to 0 (not null — this is where the original claim fails), and
non-numeric garbage parses to null without raising. -/
theorem c7_range_parser_amended :
    (∀ (s : String) (x y : List Char) (a b : ℚ),
        splitDash s.data = [x, y] → pyFloat x = some a → pyFloat y = some b →
        a ≤ b → ¬(s = "" ∨ s = "0") →
        parse_wind_speed (some s) = some ((a + b) / 2) ∧
        parse_precipitation (some s) = some ((a + b) / 2))
    ∧ (parse_wind_speed (some "0") = some 0 ∧ parse_precipitation (some "0") = some 0)
    ∧ (parse_wind_speed none = some 0 ∧ parse_precipitation none = some 0 ∧
        parse_wind_speed (some "") = some 0 ∧ parse_precipitation (some "") = some 0)
    ∧ (∀ (s : String) (x y : List Char),
        splitDash s.data = [x, y] → pyFloat x = none ∨ pyFloat y = none →
        ¬(s = "" ∨ s = "0") →
        parse_wind_speed (some s) = none ∧ parse_precipitation (some s) = none) := by
  refine ⟨?_, ⟨by decide, by decide⟩, ⟨rfl, rfl, by decide, by decide⟩, ?_⟩
  · intro s x y a b h1 h2 h3 _hab h5
    constructor
    · simp only [parse_wind_speed]
      rw [if_neg h5, h1]
      simp [h2, h3]
    · simp only [parse_precipitation]
      rw [if_neg h5, h1]
      simp [h2, h3]
  · intro s x y h1 h2 h5
    constructor
    · simp only [parse_wind_speed]
      rw [if_neg h5, h1]
      rcases h2 with h2 | h2 <;> simp [h2]
    · simp only [parse_precipitation]
      rw [if_neg h5, h1]
      rcases h2 with h2 | h2 <;> simp [h2]

/-- C7 witness: the amended theorem applied to the range `"20-30"`. -/
theorem c7_witness :
    parse_wind_speed (some "20-30") = some ((20 + 30) / 2) ∧
    parse_precipitation (some "20-30") = some ((20 + 30) / 2) :=
  c7_range_parser_amended.1 "20-30" ['2', '0'] ['3', '0'] 20 30 (by decide) rfl rfl
    (by norm_num) (by decide)

/-- C9: a mapped abbreviation is translated through the requested
language's table ("O" → "W" in English, "O" → "O" in French); an
unsupported language falls back to the English table and an unmapped
abbreviation is returned unchanged. -/
theorem c9_wind_direction_translation :
    (∀ (lang : String) (m : List (String × String)) (d v : String),
        WIND_DIRECTION_MAP lang = some m → d ≠ "" → m.lookup d = some v →
        translate_wind_direction lang (some d) = some v)
    ∧ translate_wind_direction "en" (some "O") = some "W"
    ∧ translate_wind_direction "fr" (some "O") = some "O"
    ∧ (∀ (lang d : String), WIND_DIRECTION_MAP lang = none →
        translate_wind_direction lang (some d) = translate_wind_direction "en" (some d))
    ∧ (∀ (lang : String) (m : List (String × String)) (d : String),
        WIND_DIRECTION_MAP lang = some m → d ≠ "" → m.lookup d = none →
        translate_wind_direction lang (some d) = some d) := by
  refine ⟨?_, by decide, by decide, ?_, ?_⟩
  · intro lang m d v hm hd hl
    simp [translate_wind_direction, hd, hm, hl]
  · intro lang d h
    simp only [translate_wind_direction, h]
    rfl
  · intro lang m d hm hd hl
    simp [translate_wind_direction, hd, hm, hl]

/-- C9 witness: the translation theorem applied to "E" in German, to the
unsupported language "xx" and to the unmapped abbreviation "XYZ". -/
theorem c9_witness :
    translate_wind_direction "de" (some "E") = some "O" ∧
    translate_wind_direction "xx" (some "O") = translate_wind_direction "en" (some "O") ∧
    translate_wind_direction "en" (some "XYZ") = some "XYZ" :=
  ⟨c9_wind_direction_translation.1 "de"
      [("N", "N"), ("NE", "NO"), ("E", "O"), ("SE", "SO"),
       ("S", "S"), ("SO", "SW"), ("O", "W"), ("NO", "NW")] "E" "O" rfl (by decide) rfl,
   c9_wind_direction_translation.2.2.2.1 "xx" "O" rfl,
   c9_wind_direction_translation.2.2.2.2 "en"
      [("N", "N"), ("NE", "NE"), ("E", "E"), ("SE", "SE"),
       ("S", "S"), ("SO", "SW"), ("O", "W"), ("NO", "NW")] "XYZ" rfl (by decide) rfl⟩

/-- C1 counterexample: the claim promises pairwise-distinct dates for
every payload, but a detailed feed repeating a date produces two output
entries with the same date — the detailed loop never deduplicates. -/
theorem c1_counterexample_duplicate_dates :
    async_forecast_daily (some dupDetailedPayload) none "en" "2025-10-27" =
      some dupMergeOutput ∧
    ¬ (dupMergeOutput.map Forecast.datetime).Nodup :=
  ⟨rfl, by decide⟩

/-- C1 amended: the output dates are pairwise distinct provided the
first five detailed entries carry pairwise-distinct dates and, when a
today entry is synthesized, none of those dates equals today's date. -/
theorem c1_amended_date_uniqueness :
    ∀ (dd : DailyPayload) (cur : Option CurrentData) (lang today : String)
      (out : List Forecast),
      async_forecast_daily (some dd) cur lang today = some out →
      ((dd.detailed.take 5).map DetailedDay.date).Nodup →
      (synthesizes dd cur today = true →
        today ∉ (dd.detailed.take 5).map DetailedDay.date) →
      (out.map Forecast.datetime).Nodup := by
  intro dd cur lang today out hout hnodup hsynth
  rw [async_forecast_daily_eq] at hout
  injection hout with hout
  subst hout
  have hmapdt : ((dd.detailed.take 5).map (detailedForecast cur lang today)).map
      Forecast.datetime = (dd.detailed.take 5).map DetailedDay.date := by
    rw [List.map_map]
    exact List.map_congr_left fun d _ => datetime_detailedForecast cur lang today d
  rcases startState_cases dd cur lang today with ⟨hs, hstart⟩ | ⟨c, hc, hs, hstart⟩
  · rw [detailedState_eq dd cur lang today [] [] hstart]
    apply addExtended_nodup
    · rw [List.nil_append, hmapdt]
      exact hnodup
    · intro f hf
      simp only [List.nil_append, List.append_nil] at hf ⊢
      rcases List.mem_map.mp hf with ⟨d, hd, hdf⟩
      rw [← hdf, datetime_detailedForecast]
      exact List.mem_reverse.mpr (List.mem_map_of_mem _ hd)
  · rw [detailedState_eq dd cur lang today _ _ hstart]
    apply addExtended_nodup
    · rw [List.map_append, hmapdt]
      simp only [List.map_cons, List.map_nil, List.cons_append, List.nil_append]
      rw [List.nodup_cons]
      exact ⟨hsynth hs, hnodup⟩
    · intro f hf
      rcases List.mem_append.mp hf with h1 | h1
      · simp only [List.mem_singleton] at h1
        subst h1
        exact List.mem_append_right _ (List.mem_singleton.mpr rfl)
      · rcases List.mem_map.mp h1 with ⟨d, hd, hdf⟩
        rw [← hdf, datetime_detailedForecast]
        exact List.mem_append_left _ (List.mem_reverse.mpr (List.mem_map_of_mem _ hd))

/-- C1 witness: the amended uniqueness theorem applied to a single-day
payload. -/
theorem c1_witness : (singleDayOutput.map Forecast.datetime).Nodup :=
  c1_amended_date_uniqueness singleDayPayload none "en" "2025-10-27" singleDayOutput rfl
    (by decide) (by decide)

/-- C3 counterexample: the claim allows synthesis only when the first
feed date is strictly after today, but with the feed starting 2025-10-28
and the clock already at 2025-10-29 (first date strictly before today)
the code still prepends a snapshot-sourced entry dated today. -/
theorem c3_counterexample_synthesis_when_before :
    firstForecastDate staleFeedPayload = some "2025-10-28" ∧
    ("2025-10-28" : String) < "2025-10-29" ∧
    async_forecast_daily (some staleFeedPayload) (some sampleCurrent) "en" "2025-10-29" =
      some staleOutput ∧
    staleOutput.head? = some (todayForecast sampleCurrent "en" "2025-10-29") :=
  ⟨rfl, by rw [String.lt_iff_toList_lt]; decide, rfl, rfl⟩

/-- C3 amended: a snapshot-sourced today entry is prepended exactly when
the first feed date exists, is non-empty, differs (as a string, in
either direction) from today and the snapshot is available; otherwise
every output date comes from one of the two feeds. -/
theorem c3_amended_today_synthesis_condition :
    ∀ (dd : DailyPayload) (cur : Option CurrentData) (lang today : String)
      (out : List Forecast),
      async_forecast_daily (some dd) cur lang today = some out →
      (synthesizes dd cur today = true →
        ∃ c rest, cur = some c ∧ out = todayForecast c lang today :: rest)
      ∧ (synthesizes dd cur today = false →
        ∀ f ∈ out, f.datetime ∈ dd.detailed.map DetailedDay.date ∨
          f.datetime ∈ dd.extended.map ExtendedDay.date) := by
  intro dd cur lang today out hout
  rw [async_forecast_daily_eq] at hout
  injection hout with hout
  subst hout
  constructor
  · intro hs
    rcases startState_cases dd cur lang today with ⟨hs', _⟩ | ⟨c, hc, _, hstart⟩
    · rw [hs] at hs'
      exact absurd hs' (by simp)
    · rw [detailedState_eq dd cur lang today _ _ hstart, addExtended_append]
      simp only [List.cons_append, List.nil_append]
      exact ⟨c, _, hc, rfl⟩
  · intro hs f hf
    rcases startState_cases dd cur lang today with ⟨_, hstart⟩ | ⟨c, hc, hs', _⟩
    · rw [detailedState_eq dd cur lang today [] [] hstart, addExtended_append] at hf
      simp only [List.nil_append] at hf
      rcases List.mem_append.mp hf with h1 | h1
      · rcases List.mem_map.mp h1 with ⟨d, hd, hdf⟩
        left
        rw [← hdf, datetime_detailedForecast]
        exact List.mem_map_of_mem _ (List.take_subset 5 _ hd)
      · rcases addExtended_mem _ _ _ f h1 with h2 | ⟨d, hd, hdf, _⟩
        · simp at h2
        · right
          rw [hdf]
          exact List.mem_map_of_mem _ (List.drop_subset _ _ hd)
    · rw [hs] at hs'
      exact absurd hs' (by simp)

/-- C3 witness: the amended theorem applied to the stale feed, whose
merge really does start with the snapshot-sourced today record. -/
theorem c3_witness :
    staleOutput.head? = some (todayForecast sampleCurrent "en" "2025-10-29") := by
  obtain ⟨c, rest, hc, hout⟩ :=
    (c3_amended_today_synthesis_condition staleFeedPayload (some sampleCurrent) "en"
      "2025-10-29" staleOutput rfl).1 (by decide)
  injection hc with hc
  rw [hout, ← hc]
  rfl

/-- C4 counterexample: the claim says extended iteration starts at the
count of detailed entries processed, not counting a synthesized today
entry.  Here one detailed day is processed and a today entry is
synthesized, so the code starts at index 2 instead of 1 and silently
drops the extended day 2025-10-29 even though its date was never seen. -/
theorem c4_counterexample_offset_counts_synthesized :
    async_forecast_daily (some offsetPayload) (some sampleCurrent) "en" "2025-10-27" =
      some offsetOutput ∧
    offsetOutput.map Forecast.datetime = ["2025-10-27", "2025-10-28", "2025-10-30"] ∧
    (offsetPayload.detailed.take 5).length = 1 ∧
    offsetPayload.extended.map ExtendedDay.date =
      ["2025-10-28", "2025-10-29", "2025-10-30"] ∧
    "2025-10-29" ∉ offsetOutput.map Forecast.datetime :=
  ⟨rfl, by decide, rfl, by decide, by decide⟩

/-- C4 amended: extended iteration starts at index equal to the length
of the list built so far — the detailed entries processed plus the
synthesized today entry when there is one — and each visited extended
day contributes (verbatim, dropped otherwise) only if its date was not
already seen. -/
theorem c4_amended_extended_offset :
    ∀ (dd : DailyPayload) (cur : Option CurrentData) (lang today : String)
      (out : List Forecast),
      async_forecast_daily (some dd) cur lang today = some out →
      (detailedState dd cur lang today).1.length =
          (startState dd cur lang today).1.length + (dd.detailed.take 5).length
      ∧ out = (detailedState dd cur lang today).1 ++
          (addExtended (dd.extended.drop (detailedState dd cur lang today).1.length)
            ([], (detailedState dd cur lang today).2)).1
      ∧ ∀ f ∈ (addExtended (dd.extended.drop (detailedState dd cur lang today).1.length)
            ([], (detailedState dd cur lang today).2)).1,
          ∃ d ∈ dd.extended.drop (detailedState dd cur lang today).1.length,
            f = extendedForecast d ∧ d.date ∉ (detailedState dd cur lang today).2 := by
  intro dd cur lang today out hout
  rw [async_forecast_daily_eq] at hout
  injection hout with hout
  subst hout
  rcases hst : startState dd cur lang today with ⟨fs0, seen0⟩
  refine ⟨?_, ?_, ?_⟩
  · rw [detailedState_eq dd cur lang today fs0 seen0 hst]
    simp
  · rw [detailedState_eq dd cur lang today fs0 seen0 hst, addExtended_append]
  · intro f hf
    rw [detailedState_eq dd cur lang today fs0 seen0 hst] at hf ⊢
    rcases addExtended_mem _ _ _ f hf with h2 | ⟨d, hd, hdf, hns⟩
    · simp at h2
    · exact ⟨d, hd, hdf, hns⟩

/-- C4 witness: the amended offset equation applied to a payload with
only an extended feed. -/
theorem c4_witness :
    (detailedState extOnlyPayload none "en" "2025-10-27").1.length =
      (startState extOnlyPayload none "en" "2025-10-27").1.length +
        (extOnlyPayload.detailed.take 5).length :=
  (c4_amended_extended_offset extOnlyPayload none "en" "2025-10-27" _ rfl).1

/-- C8 counterexample: the claim says the merge's inputs include a
today-date passed in by the caller rather than read internally; in the
code the date comes from the internal clock, so two runs over identical
coordinator payloads return different results when the clock moves from
2025-10-27 to 2025-10-28 — hidden state the caller never supplied. -/
theorem c8_counterexample_hidden_clock_state :
    (async_forecast_daily (some staleFeedPayload) (some sampleCurrent) "en"
        "2025-10-28").map List.length = some 1 ∧
    (async_forecast_daily (some staleFeedPayload) (some sampleCurrent) "en"
        "2025-10-27").map List.length = some 2 :=
  ⟨rfl, rfl⟩

/-- C8 amended: the merge is a pure function of the detailed list, the
extended list, the snapshot's weather fields, the language and the
internally-read clock date: any two runs agreeing on those — whatever
the unrelated payload keys contain — return identical output. -/
theorem c8_amended_purity :
    ∀ (det : List DetailedDay) (ext : List ExtendedDay)
      (r1 r2 s1 s2 : List (String × Val)) (icon : Option Nat) (temp : Val)
      (felt : Option Val) (ws wg wd ra : Option String)
      (hum pres clouds uv : Option Val) (lang today : String),
      async_forecast_daily (some (DailyPayload.mk det ext r1))
          (some (CurrentData.mk icon temp felt ws wg wd ra hum pres clouds uv s1))
          lang today =
        async_forecast_daily (some (DailyPayload.mk det ext r2))
          (some (CurrentData.mk icon temp felt ws wg wd ra hum pres clouds uv s2))
          lang today := by
  intro det ext r1 r2 s1 s2 icon temp felt ws wg wd ra hum pres clouds uv lang today
  have hc : ∀ day,
      detailedForecast (some (CurrentData.mk icon temp felt ws wg wd ra hum pres clouds uv s1))
          lang today day =
        detailedForecast (some (CurrentData.mk icon temp felt ws wg wd ra hum pres clouds uv s2))
          lang today day :=
    fun _ => rfl
  have hst :
      detailedState (DailyPayload.mk det ext r1)
          (some (CurrentData.mk icon temp felt ws wg wd ra hum pres clouds uv s1)) lang today =
        detailedState (DailyPayload.mk det ext r2)
          (some (CurrentData.mk icon temp felt ws wg wd ra hum pres clouds uv s2)) lang today := by
    show addDetailed (some (CurrentData.mk icon temp felt ws wg wd ra hum pres clouds uv s1))
        lang today (det.take 5)
        (startState (DailyPayload.mk det ext r1)
          (some (CurrentData.mk icon temp felt ws wg wd ra hum pres clouds uv s1)) lang today) =
      addDetailed (some (CurrentData.mk icon temp felt ws wg wd ra hum pres clouds uv s2))
        lang today (det.take 5)
        (startState (DailyPayload.mk det ext r2)
          (some (CurrentData.mk icon temp felt ws wg wd ra hum pres clouds uv s2)) lang today)
    rw [show startState (DailyPayload.mk det ext r1)
        (some (CurrentData.mk icon temp felt ws wg wd ra hum pres clouds uv s1)) lang today =
      startState (DailyPayload.mk det ext r2)
        (some (CurrentData.mk icon temp felt ws wg wd ra hum pres clouds uv s2)) lang today
      from rfl]
    exact addDetailed_congr _ _ lang today hc (det.take 5) _
  rw [async_forecast_daily_eq, async_forecast_daily_eq, hst]

/-- C10: every record the merged forecast carries beyond the
detailed-phase prefix copies its date, high/low temperature and
precipitation verbatim from an extended-feed day (all other fields
absent), while detailed-phase records run the raw values through
`parse_temperature` and `parse_precipitation`. -/
theorem c10_extended_values_verbatim :
    ∀ (dd : DailyPayload) (cur : Option CurrentData) (lang today : String)
      (out : List Forecast),
      async_forecast_daily (some dd) cur lang today = some out →
      (∀ f ∈ out.drop (detailedState dd cur lang today).1.length,
        ∃ d ∈ dd.extended,
          f = Forecast.mk d.date none d.maxTemp none d.minTemp d.precipitation
                none none none none none none none)
      ∧ ∀ (day : DetailedDay),
          (detailedForecast cur lang today day).native_temperature =
            (parse_temperature day.temperatureMax).map Val.num ∧
          (detailedForecast cur lang today day).native_templow =
            (parse_temperature day.temperatureMin).map Val.num ∧
          (detailedForecast cur lang today day).native_precipitation =
            (parse_precipitation day.rain).map Val.num := by
  intro dd cur lang today out hout
  rw [async_forecast_daily_eq] at hout
  injection hout with hout
  subst hout
  constructor
  · intro f hf
    rcases hst : startState dd cur lang today with ⟨fs0, seen0⟩
    rw [detailedState_eq dd cur lang today fs0 seen0 hst, addExtended_append,
      List.drop_left] at hf
    rcases addExtended_mem _ _ _ f hf with h2 | ⟨d, hd, hdf, _⟩
    · simp at h2
    · exact ⟨d, List.drop_subset _ _ hd, hdf⟩
  · intro day
    cases cur with
    | none => exact ⟨rfl, rfl, rfl⟩
    | some c =>
      by_cases h : day.date = today <;> simp [detailedForecast, h]

/-- C10 witness: the theorem applied to an extended feed holding the raw
range string "1-2", which survives unchanged in the output. -/
theorem c10_witness :
    extendedForecast
        (ExtendedDay.mk "2025-11-02" (some (Val.str "1-2")) (some (Val.num 1))
          (some (Val.str "1-2"))) =
      Forecast.mk "2025-11-02" none (some (Val.str "1-2")) none (some (Val.num 1))
        (some (Val.str "1-2")) none none none none none none none := by
  obtain ⟨d, hd, hf⟩ :=
    (c10_extended_values_verbatim verbatimPayload none "en" "2025-11-02" _ rfl).1
      (extendedForecast
        (ExtendedDay.mk "2025-11-02" (some (Val.str "1-2")) (some (Val.num 1))
          (some (Val.str "1-2")))) (by decide)
  have hd' : d = ExtendedDay.mk "2025-11-02" (some (Val.str "1-2")) (some (Val.num 1))
      (some (Val.str "1-2")) := by
    simpa [verbatimPayload] using hd
  rw [hd'] at hf
  exact hf

end MeteoLux
